import Mathlib

/-!
Verification of `src/callback.hpp` (timoxd7/callback): a fixed-capacity,
type-erased callable handle `Callback<R, ArgTs...>`.

Shallow embedding. Addresses are modelled as `Nat`, with `0` playing the
role of the null pointer. A C++ function pointer is modelled as an address
paired with the mathematical function it denotes (`FuncPtr`); comparison
in the source compares addresses only, invocation uses the denotation.
A member-function pointer is modelled analogously (`MethodPtr`), its
denotation taking the object's address first. The object type `T` of
`MethodCaller<T>` is modelled as a `Nat` type tag (`tyT`), since
`typeid(MethodCaller<T1>) == typeid(MethodCaller<T2>)` iff `T1 = T2`.

The identity-comparison protocol (enabled by
`CONFIG_CALLBACK_INCLUDE_POINT_TO_SAME`) only ever inspects addresses and
dynamic types, so it is embedded on an address-only view (`CmpCallable`,
`CmpCallback`); the typed layer delegates to it by erasure, mirroring the
fact that both layers run the very same `tryCompare` code.
-/

/-- A free-function pointer `R (*)(ArgTs...)`: its address (0 = nullptr)
and the function it denotes. -/
structure FuncPtr (α ρ : Type) where
  addr : Nat
  sem : α → ρ

/-- A member-function pointer `R (T::*)(ArgTs...)`: its address
(0 = nullptr) and its denotation, taking the object's address. -/
structure MethodPtr (α ρ : Type) where
  addr : Nat
  sem : Nat → α → ρ

/-- Address-only view of the concrete `InternalCallable` variants, used by
the comparison protocol: `FunctionCaller` stores the function address;
`MethodCaller<T>` stores the type tag of `T`, the object address and the
method address. -/
inductive CmpCallable : Type where
  | functionCaller (funcAddr : Nat)
  | methodCaller (tyT : Nat) (objAddr : Nat) (methodAddr : Nat)
deriving DecidableEq

/-- `typeid(*other) == typeid(*this)` between two concrete
`InternalCallable` variants: equal iff both are `FunctionCaller`, or both
are `MethodCaller<T>` for the same `T`. -/
def CmpCallable.sameDynType : CmpCallable → CmpCallable → Bool
  | .functionCaller _, .functionCaller _ => true
  | .methodCaller t _ _, .methodCaller t' _ _ => t = t'
  | _, _ => false

/-- `FunctionCaller::tryCompare` / `MethodCaller<T>::tryCompare`
(src/callback.hpp:244-256, 274-288): guard against a null `other`
pointer, then check `typeid(*other) == typeid(*this)`, then compare the
stored addresses field by field. -/
def CmpCallable.tryCompare : CmpCallable → Option CmpCallable → Bool
  | _, none => false
  | .functionCaller f, some o =>
      match o with
      | .functionCaller g => g = f
      | _ => false
  | .methodCaller t obj m, some o =>
      match o with
      | .methodCaller t' obj' m' => t' = t && (obj' = obj && m' = m)
      | _ => false

/-- The concrete erasure variant placed in the `Callback`'s buffer:
`FunctionCaller` (stores a `FuncPtr`) or `MethodCaller<T>` (stores the
type tag of `T`, the object address and a `MethodPtr`). -/
inductive InternalCallable (α ρ : Type) : Type where
  | functionCaller (func : FuncPtr α ρ)
  | methodCaller (tyT : Nat) (obj : Nat) (method : MethodPtr α ρ)

/-- Erase a typed variant to its address-only comparison view. -/
def InternalCallable.erase : InternalCallable α ρ → CmpCallable
  | .functionCaller f => .functionCaller f.addr
  | .methodCaller t obj m => .methodCaller t obj m.addr

/-- `InternalCallable::call` as implemented by the two variants:
`FunctionCaller::call` invokes the stored function address
(src/callback.hpp:241); `MethodCaller::call` invokes the stored method on
the stored object (src/callback.hpp:271). -/
def InternalCallable.call : InternalCallable α ρ → α → ρ
  | .functionCaller f, a => f.sem a
  | .methodCaller _ obj m, a => m.sem obj a

/-- `tryCompare` of a typed variant: the source code compares only
addresses and dynamic types, so it factors through the erasure. -/
def InternalCallable.tryCompare (c : InternalCallable α ρ)
    (other : Option (InternalCallable α ρ)) : Bool :=
  CmpCallable.tryCompare c.erase (other.map InternalCallable.erase)

/-- `Callback<R, ArgTs...>`: the bound flag `_callbackSet` and the inline
buffer, which after construction either holds one live erasure variant or
nothing. -/
structure Callback (α ρ : Type) where
  callbackSet : Bool
  buffer : Option (InternalCallable α ρ)

/-- The default constructor `Callback()` (src/callback.hpp:60): unbound,
nothing placed in the buffer. -/
def Callback.empty : Callback α ρ := ⟨false, none⟩

/-- `Callback(R (*)(ArgTs...))` (src/callback.hpp:67-78): if the function
pointer is null the result is unbound with an empty buffer, otherwise a
`FunctionCaller` is placed in the buffer. -/
def Callback.ofFunction (func : FuncPtr α ρ) : Callback α ρ :=
  if func.addr = 0 then ⟨false, none⟩
  else ⟨true, some (.functionCaller func)⟩

/-- `Callback(T*, R (T::*)(ArgTs...))` (src/callback.hpp:88-99): if the
object pointer or the method pointer is null the result is unbound with an
empty buffer, otherwise a `MethodCaller<T>` is placed in the buffer. -/
def Callback.ofMethod (tyT : Nat) (obj : Nat) (method : MethodPtr α ρ) :
    Callback α ρ :=
  if obj = 0 ∨ method.addr = 0 then ⟨false, none⟩
  else ⟨true, some (.methodCaller tyT obj method)⟩

/-- `Callback::isCallbackSet` (src/callback.hpp:122). -/
def Callback.isCallbackSet (cb : Callback α ρ) : Bool := cb.callbackSet

/-- `Callback::call` via `_call` (src/callback.hpp:106, 182-198): if the
callback is set, dispatch through the erasure in the buffer; otherwise
return `(R)0` — here the signature's zero value `z` (for `R = void`,
`ρ = Unit` and `z = ()`). The `none` branch under a set flag models a
read of an uninitialized buffer, which no constructed callback reaches. -/
def Callback.call (z : ρ) (cb : Callback α ρ) (a : α) : ρ :=
  if cb.callbackSet then
    match cb.buffer with
    | some c => c.call a
    | none => z
  else z

/-- `Callback::pointToSame(const Callback<R, ArgTs...>&)`
(src/callback.hpp:133-147): both unbound compares equal; both bound
delegates to the buffered variant's `tryCompare`; otherwise false. -/
def Callback.pointToSame (cb other : Callback α ρ) : Bool :=
  if !cb.callbackSet then
    !other.callbackSet
  else if other.callbackSet then
    match cb.buffer, other.buffer with
    | some c, some o => c.tryCompare (some o)
    | _, _ => false
  else false

/-- A concrete call signature `R(ArgTs...)`, as compared by
`typeid(Callback<R, ArgTs...>)`: a type tag for `R` and the list of type
tags of the arguments. -/
structure SigTag where
  ret : Nat
  args : List Nat
deriving DecidableEq

/-- The signature-erased view of a `Callback` seen through the
`CallbackCompare` base: its concrete signature (its dynamic type), the
bound flag, and the address-only view of its buffer. -/
structure CmpCallback where
  sig : SigTag
  callbackSet : Bool
  buffer : Option CmpCallable

/-- The same-signature comparison path (src/callback.hpp:133-147),
reached after the cast in `pointToSame(const CallbackCompare&)`. -/
def CmpCallback.pointToSameSig (cb other : CmpCallback) : Bool :=
  if !cb.callbackSet then
    !other.callbackSet
  else if other.callbackSet then
    match cb.buffer, other.buffer with
    | some c, some o => c.tryCompare (some o)
    | _, _ => false
  else false

/-- `Callback::pointToSame(const CallbackCompare&)`
(src/callback.hpp:149-156): first check
`typeid(otherCallable) == typeid(*this)` — i.e. that the other handle's
concrete signature is exactly this one's — and only then delegate to the
same-signature comparison; otherwise false. -/
def CmpCallback.pointToSame (cb other : CmpCallback) : Bool :=
  if cb.sig = other.sig then cb.pointToSameSig other else false

/-- Erase a typed `Callback` with its signature tag to the
`CallbackCompare` view. -/
def Callback.eraseCmp (sig : SigTag) (cb : Callback α ρ) : CmpCallback :=
  ⟨sig, cb.callbackSet, cb.buffer.map InternalCallable.erase⟩

/-- `_checkSizeFit<ToCheck, MaxSize>` (src/callback.hpp:206-209):
compiles iff `static_assert(MaxSize >= RealSize)` holds. -/
def checkSizeFit (maxSize realSize : Nat) : Prop :=
  maxSize ≥ realSize

/-- `_checkSizeEqual<ToCheck, ExpectedSize>` (src/callback.hpp:200-204):
compiles iff `static_assert(ExpectedSize >= RealSize)` and
`static_assert(ExpectedSize == RealSize)` both hold. -/
def checkSizeEqual (expectedSize realSize : Nat) : Prop :=
  expectedSize ≥ realSize ∧ expectedSize = realSize

instance : DecidablePred fun p : Nat × Nat => checkSizeFit p.1 p.2 :=
  fun p => inferInstanceAs (Decidable (p.1 ≥ p.2))

instance : DecidablePred fun p : Nat × Nat => checkSizeEqual p.1 p.2 :=
  fun p => inferInstanceAs (Decidable (p.1 ≥ p.2 ∧ p.1 = p.2))

/-- The operations available on a `Callback` after construction: `call`
(also reached through `operator()`), `isCallbackSet`, and `pointToSame`
(also reached through `operator==`). -/
inductive CbOp (α ρ : Type) : Type where
  | callOp (a : α)
  | isSetOp
  | compareOp (other : Callback α ρ)

/-- The member state (`_callbackSet`, `_buffer`) after executing one
operation: every method is `const` and assigns no member, so the state
after is rebuilt from the unmodified fields. -/
def Callback.applyOp (cb : Callback α ρ) : CbOp α ρ → Callback α ρ
  | .callOp _ => ⟨cb.callbackSet, cb.buffer⟩
  | .isSetOp => ⟨cb.callbackSet, cb.buffer⟩
  | .compareOp _ => ⟨cb.callbackSet, cb.buffer⟩

/-- The member state after executing a sequence of operations. -/
def Callback.runOps (cb : Callback α ρ) : List (CbOp α ρ) → Callback α ρ
  | [] => cb
  | op :: rest => Callback.runOps (cb.applyOp op) rest

/-- C1: for every non-null free-function address `f`, a `Callback`
constructed from `f` has `isCallbackSet() == true`, and calling it with
any arguments `a` returns exactly `f(a)`. -/
theorem callback_ofFunction_spec (f : FuncPtr α ρ) (z : ρ) (a : α)
    (h : f.addr ≠ 0) :
    (Callback.ofFunction f).isCallbackSet = true ∧
    (Callback.ofFunction f).call z a = f.sem a := by
  simp [Callback.ofFunction, Callback.isCallbackSet, Callback.call, h,
    InternalCallable.call]

/-- Witness for C1 at the function pointer with address 5 denoting
`fun n => n + 1`, called with argument 3. -/
theorem callback_ofFunction_spec_witness :
    ((5 : Nat) ≠ 0) ∧
    ((Callback.ofFunction (⟨5, fun n => n + 1⟩ : FuncPtr Int Int)).isCallbackSet
        = true ∧
      (Callback.ofFunction (⟨5, fun n => n + 1⟩ : FuncPtr Int Int)).call 0 3
        = (⟨5, fun n => n + 1⟩ : FuncPtr Int Int).sem 3) :=
  ⟨by decide, callback_ofFunction_spec _ 0 3 (by decide)⟩

/-- C2: for every non-null object pointer and non-null method pointer, a
`Callback` constructed from the pair has `isCallbackSet() == true`, and
calling it with any arguments `a` returns exactly the result of invoking
that method on that object with `a`. -/
theorem callback_ofMethod_spec (t obj : Nat) (m : MethodPtr α ρ) (z : ρ)
    (a : α) (hobj : obj ≠ 0) (hm : m.addr ≠ 0) :
    (Callback.ofMethod t obj m).isCallbackSet = true ∧
    (Callback.ofMethod t obj m).call z a = m.sem obj a := by
  simp [Callback.ofMethod, Callback.isCallbackSet, Callback.call, hobj, hm,
    InternalCallable.call]

/-- Witness for C2 at object address 7 and the method pointer with
address 9 denoting `fun obj n => n + obj`, called with argument 3. -/
theorem callback_ofMethod_spec_witness :
    ((7 : Nat) ≠ 0) ∧ ((9 : Nat) ≠ 0) ∧
    ((Callback.ofMethod 1 7 (⟨9, fun obj n => n + obj⟩ : MethodPtr Int Int)).isCallbackSet
        = true ∧
      (Callback.ofMethod 1 7 (⟨9, fun obj n => n + obj⟩ : MethodPtr Int Int)).call 0 3
        = (⟨9, fun obj n => n + obj⟩ : MethodPtr Int Int).sem 7 3) :=
  ⟨by decide, by decide,
    callback_ofMethod_spec 1 7 _ 0 3 (by decide) (by decide)⟩

/-- C3: a `Callback` constructed from a null function pointer, or from a
pair with a null object or null method pointer, as well as a
default-constructed `Callback`, has `isCallbackSet() == false` and no
erasure variant placed in its buffer. -/
theorem callback_null_unbound (f : FuncPtr α ρ) (t obj : Nat)
    (m : MethodPtr α ρ) (hf : f.addr = 0) (hnull : obj = 0 ∨ m.addr = 0) :
    (Callback.ofFunction f).isCallbackSet = false ∧
    (Callback.ofFunction f).buffer = none ∧
    (Callback.ofMethod t obj m).isCallbackSet = false ∧
    (Callback.ofMethod t obj m).buffer = none ∧
    (Callback.empty : Callback α ρ).isCallbackSet = false ∧
    (Callback.empty : Callback α ρ).buffer = none := by
  refine ⟨?_, ?_, ?_, ?_, rfl, rfl⟩ <;>
    simp [Callback.ofFunction, Callback.ofMethod, Callback.isCallbackSet,
      hf, if_pos hnull]

/-- Witness for C3 at a null function pointer and an (object, method)
pair with a null object address. -/
theorem callback_null_unbound_witness :
    ((⟨0, fun n => n⟩ : FuncPtr Int Int).addr = 0) ∧
    ((0 : Nat) = 0 ∨ (⟨9, fun _ n => n⟩ : MethodPtr Int Int).addr = 0) ∧
    ((Callback.ofFunction (⟨0, fun n => n⟩ : FuncPtr Int Int)).isCallbackSet
        = false ∧
      (Callback.ofFunction (⟨0, fun n => n⟩ : FuncPtr Int Int)).buffer = none ∧
      (Callback.ofMethod 1 0 (⟨9, fun _ n => n⟩ : MethodPtr Int Int)).isCallbackSet
        = false ∧
      (Callback.ofMethod 1 0 (⟨9, fun _ n => n⟩ : MethodPtr Int Int)).buffer
        = none ∧
      (Callback.empty : Callback Int Int).isCallbackSet = false ∧
      (Callback.empty : Callback Int Int).buffer = none) :=
  ⟨rfl, Or.inl rfl, callback_null_unbound _ 1 0 _ rfl (Or.inl rfl)⟩

/-- C4: for every unbound `Callback` and every argument, `call` returns
the signature's zero value and leaves the member state unchanged (the
silent no-op path of `_call`). -/
theorem callback_unbound_call (cb : Callback α ρ) (z : ρ) (a : α)
    (h : cb.callbackSet = false) :
    cb.call z a = z ∧ cb.applyOp (.callOp a) = cb := by
  constructor
  · simp [Callback.call, h]
  · cases cb; rfl

/-- Witness for C4 at the default-constructed callback with zero value 0
and argument 7. -/
theorem callback_unbound_call_witness :
    ((Callback.empty : Callback Int Int).callbackSet = false) ∧
    ((Callback.empty : Callback Int Int).call 0 7 = 0 ∧
      (Callback.empty : Callback Int Int).applyOp (.callOp 7) = Callback.empty) :=
  ⟨rfl, callback_unbound_call Callback.empty 0 7 rfl⟩

/-- C5: for every pair of same-signature `Callback`s, `pointToSame`
returns true iff both are unbound, or both are bound to `FunctionCaller`s
holding the same function address, or both are bound to `MethodCaller`s
of the same object type holding the same object address and the same
method address; any other configuration yields false. -/
theorem pointToSame_spec (a b : Callback α ρ) :
    a.pointToSame b = true ↔
      (a.callbackSet = false ∧ b.callbackSet = false) ∨
      (a.callbackSet = true ∧ b.callbackSet = true ∧
        ∃ f g, a.buffer = some (.functionCaller f) ∧
          b.buffer = some (.functionCaller g) ∧ f.addr = g.addr) ∨
      (a.callbackSet = true ∧ b.callbackSet = true ∧
        ∃ t obj m obj' m', a.buffer = some (.methodCaller t obj m) ∧
          b.buffer = some (.methodCaller t obj' m') ∧
          obj = obj' ∧ m.addr = m'.addr) := by
  obtain ⟨sa, ba⟩ := a
  obtain ⟨sb, bb⟩ := b
  cases sa <;> cases sb <;>
    simp [Callback.pointToSame]
  · cases ba <;> cases bb <;>
      simp [InternalCallable.tryCompare, InternalCallable.erase,
        CmpCallable.tryCompare]
    case some.some c o =>
      cases c <;> cases o <;>
        simp [InternalCallable.tryCompare, InternalCallable.erase,
          CmpCallable.tryCompare]
      case functionCaller.functionCaller f g =>
        exact eq_comm
      case methodCaller.methodCaller t obj m t' obj' m' =>
        constructor
        · rintro ⟨h1, h2, h3⟩
          exact ⟨t, obj, m, ⟨rfl, rfl, rfl⟩, obj', m', ⟨h1, rfl, rfl⟩,
            h2.symm, h3.symm⟩
        · rintro ⟨t1, o1, m1, ⟨ht, ho, hm⟩, x, x1, ⟨ht', hx, hx1⟩, he, ha⟩
          subst ht
          subst ho
          subst hm
          subst hx
          subst hx1
          exact ⟨ht', he.symm, ha.symm⟩

/-- C6: comparing a `Callback` against an opaquely-typed
`CallbackCompare` of a different concrete signature always returns false,
regardless of the bound flags and the addresses stored in either handle. -/
theorem pointToSame_crossSig (a b : CmpCallback) (h : a.sig ≠ b.sig) :
    a.pointToSame b = false := by
  simp [CmpCallback.pointToSame, h]

/-- Witness for C6: two handles of different signatures whose buffers
hold identical addresses still compare unequal. -/
theorem pointToSame_crossSig_witness :
    ((⟨⟨0, [1]⟩, true, some (.functionCaller 5)⟩ : CmpCallback).sig ≠
      (⟨⟨2, [1]⟩, true, some (.functionCaller 5)⟩ : CmpCallback).sig) ∧
    CmpCallback.pointToSame
      ⟨⟨0, [1]⟩, true, some (.functionCaller 5)⟩
      ⟨⟨2, [1]⟩, true, some (.functionCaller 5)⟩ = false :=
  ⟨by decide, pointToSame_crossSig _ _ (by decide)⟩

/-- C7: every post-construction operation (`call`, `isCallbackSet`,
`pointToSame`) leaves the member state unchanged: after any sequence of
operations, `isCallbackSet` is unchanged and comparisons against any
fixed other handle give the same outcome. -/
theorem callback_ops_frame (cb : Callback α ρ) (ops : List (CbOp α ρ)) :
    (cb.runOps ops).isCallbackSet = cb.isCallbackSet ∧
    ∀ b : Callback α ρ, (cb.runOps ops).pointToSame b = cb.pointToSame b ∧
      b.pointToSame (cb.runOps ops) = b.pointToSame cb := by
  have h : cb.runOps ops = cb := by
    induction ops generalizing cb with
    | nil => rfl
    | cons op rest ih =>
        obtain ⟨s, b⟩ := cb
        cases op <;> exact ih _
  rw [h]
  exact ⟨rfl, fun b => ⟨rfl, rfl⟩⟩

/-- C8: the compile-time size checks guarantee the buffer-capacity
invariant: a `FunctionCaller` passing `_checkSizeFit` fits within the
buffer, and a `MethodCaller` passing `_checkSizeEqual` is exactly the
buffer's size; hence no bound `Callback` holds a variant larger than its
inline buffer. -/
theorem checkSize_bounds (bufSize fnSize mSize : Nat)
    (hf : checkSizeFit bufSize fnSize) (hm : checkSizeEqual bufSize mSize) :
    fnSize ≤ bufSize ∧ mSize = bufSize ∧ mSize ≤ bufSize :=
  ⟨hf, hm.2.symm, hm.1⟩

/-- Witness for C8 with a 16-byte buffer, an 8-byte `FunctionCaller` and
a 16-byte `MethodCaller`. -/
theorem checkSize_bounds_witness :
    checkSizeFit 16 8 ∧ checkSizeEqual 16 16 ∧
    (8 ≤ 16 ∧ 16 = 16 ∧ 16 ≤ 16) :=
  ⟨by simp [checkSizeFit], by simp [checkSizeEqual],
    checkSize_bounds 16 8 16 (by simp [checkSizeFit]) (by simp [checkSizeEqual])⟩

/-- C9: `tryCompare` is self-guarding: for every variant it returns false
when the other erasure pointer is null, and false whenever the other
variant's concrete dynamic type differs from its own, before any
field-level comparison. -/
theorem tryCompare_selfGuard (c o : CmpCallable)
    (h : c.sameDynType o = false) :
    c.tryCompare none = false ∧ c.tryCompare (some o) = false := by
  constructor
  · cases c <;> rfl
  · cases c <;> cases o <;>
      simp_all [CmpCallable.tryCompare, CmpCallable.sameDynType]
    omega

/-- Witness for C9: a `FunctionCaller` compared against a null pointer
and against a `MethodCaller` holding the same numeric addresses. -/
theorem tryCompare_selfGuard_witness :
    (CmpCallable.functionCaller 5).sameDynType (.methodCaller 1 5 5) = false ∧
    ((CmpCallable.functionCaller 5).tryCompare none = false ∧
      (CmpCallable.functionCaller 5).tryCompare (some (.methodCaller 1 5 5))
        = false) :=
  ⟨by decide, tryCompare_selfGuard _ _ (by decide)⟩

/-- C10: same-signature identity comparison is symmetric: for every pair
of `Callback`s of the same signature, `a.pointToSame b` equals
`b.pointToSame a`. -/
theorem pointToSame_symm (a b : Callback α ρ) :
    a.pointToSame b = b.pointToSame a := by
  obtain ⟨sa, ba⟩ := a
  obtain ⟨sb, bb⟩ := b
  cases sa <;> cases sb <;>
    simp [Callback.pointToSame]
  cases ba <;> cases bb <;>
    simp [InternalCallable.tryCompare, InternalCallable.erase,
      CmpCallable.tryCompare]
  case some.some c o =>
    cases c <;> cases o <;>
      simp [InternalCallable.tryCompare, InternalCallable.erase,
        CmpCallable.tryCompare]
    case functionCaller.functionCaller f g =>
      exact eq_comm
    case methodCaller.methodCaller t obj m t' obj' m' =>
      rw [Bool.eq_iff_iff]
      simp only [Bool.and_eq_true, decide_eq_true_eq]
      constructor
      · rintro ⟨h1, h2, h3⟩
        exact ⟨h1.symm, h2.symm, h3.symm⟩
      · rintro ⟨h1, h2, h3⟩
        exact ⟨h1.symm, h2.symm, h3.symm⟩
